import Mathlib

/-!
# DAC128S085 SPI driver: command encoding and error mapping

A shallow embedding of `dac128s085.c` / `dac128s085.h`.

* `uint16_t` values are natural numbers; every store into a `uint16_t` variable is
  written with an explicit `% 65536`.
* The SPI peripheral behind the global handle `hspi3` is the state `SpiBus`: the list of
  16-bit words handed to `HAL_SPI_Transmit` so far, and the answer the HAL gives to each
  transmit request (which may depend on everything sent before and on the word itself).
  The driver functions take the bus and return the status together with the bus afterwards.
-/

namespace DAC128S085

/-! ## Types and constants -/

/-- Driver status codes, `E_DAC_STATUS` of dac128s085.h. -/
inductive E_DAC_STATUS where
  | E_DAC_OK
  | E_DAC_PARAM_ERROR
  | E_DAC_SPI_ERROR
  deriving DecidableEq, Repr

/-- Status codes of the STM32 HAL (`HAL_StatusTypeDef` of the vendor header
stm32l4xx_hal_def.h, which the driver includes). -/
inductive HAL_StatusTypeDef where
  | HAL_OK
  | HAL_ERROR
  | HAL_BUSY
  | HAL_TIMEOUT
  deriving DecidableEq, Repr

/-- HAL SPI timeout in milliseconds. -/
def SPI_TIMEOUT_MS : Nat := 10
/-- Number of 16-bit SPI transfers per transmit call. -/
def SPI_TX_SIZE : Nat := 1

/-- Mode command b1000: write to registers only (defined by the driver, used nowhere). -/
def WRM_MODE : Nat := 0x8000
/-- Mode command: write through to output (defined by the driver, used nowhere). -/
def WRT_MODE : Nat := 0x9000
/-- Special command b1011: write through for channel A. -/
def CHA_WRITE : Nat := 0xB000
/-- Special command b1100: write through to all outputs. -/
def BROADCAST : Nat := 0xC000

/-- Mask of the channel number. -/
def DAC_CH_MASK : Nat := 0x7
/-- Position of the channel number: bits [14:12] of the 16-bit command. -/
def DAC_CH_SHIFT : Nat := 12
/-- Number of channels. -/
def DAC_CH_MAX : Nat := 8
/-- Mask of the value: lowest 12 bits of the 16-bit command. -/
def DAC_VAL_MASK : Nat := 0xFFF
/-- Largest register value. -/
def DAC_VAL_MAX : Nat := 4095

/-- Command b1010: update output of selected channels (dac128s085.h). -/
def UPDATE_SEL : Nat := 0xA000

/-- Output enable flag of channel A. -/
def CH_A_EN : Nat := 1 <<< 0
/-- Output enable flag of channel B. -/
def CH_B_EN : Nat := 1 <<< 1
/-- Output enable flag of channel C. -/
def CH_C_EN : Nat := 1 <<< 2
/-- Output enable flag of channel D. -/
def CH_D_EN : Nat := 1 <<< 3
/-- Output enable flag of channel E. -/
def CH_E_EN : Nat := 1 <<< 4
/-- Output enable flag of channel F. -/
def CH_F_EN : Nat := 1 <<< 5
/-- Output enable flag of channel G. -/
def CH_G_EN : Nat := 1 <<< 6
/-- Output enable flag of channel H. -/
def CH_H_EN : Nat := 1 <<< 7

/-- The header's enable flags listed by channel number, A = 0 up to H = 7. -/
def channelEnables : List Nat :=
  [CH_A_EN, CH_B_EN, CH_C_EN, CH_D_EN, CH_E_EN, CH_F_EN, CH_G_EN, CH_H_EN]

/-- The value of a C comparison: `1` when it holds and `0` when it does not. -/
def cTruth (b : Bool) : Nat := if b then 1 else 0

/-! ## The transport -/

/-- State of the SPI peripheral `hspi3` as the driver sees it. `sent` lists the words handed
to the HAL, oldest first. `answer hist w` is the status the HAL reports for a request to
transmit `w` when `hist` has been sent before. -/
structure SpiBus where
  answer : List Nat → Nat → HAL_StatusTypeDef
  sent : List Nat

/-- One blocking transmit of `Size` 16-bit units taken from `pData`. The driver only ever
passes the address of a single `uint16_t`, so `pData` is that one word. -/
def HAL_SPI_Transmit (hspi : SpiBus) (pData : Nat) (_Size _Timeout : Nat) :
    HAL_StatusTypeDef × SpiBus :=
  (hspi.answer hspi.sent pData, { hspi with sent := hspi.sent ++ [pData] })

/-! ## The driver -/

/-- Update the data register of a single DAC channel. -/
def DAC128S085_SetChannelReg (hspi3 : SpiBus) (channel dacValue : Nat) :
    E_DAC_STATUS × SpiBus :=
  if (cTruth (decide (channel ≥ DAC_CH_MAX)) ||| cTruth (decide (dacValue > DAC_VAL_MAX))) ≠ 0 then
    (E_DAC_STATUS.E_DAC_PARAM_ERROR, hspi3)
  else
    let temp : Nat :=
      (((channel &&& DAC_CH_MASK) <<< DAC_CH_SHIFT) ||| (dacValue &&& DAC_VAL_MASK)) % 65536
    let tx := HAL_SPI_Transmit hspi3 temp SPI_TX_SIZE SPI_TIMEOUT_MS
    if tx.1 ≠ HAL_StatusTypeDef.HAL_OK then
      (E_DAC_STATUS.E_DAC_SPI_ERROR, tx.2)
    else
      (E_DAC_STATUS.E_DAC_OK, tx.2)

/-- Enable or disable DAC outputs according to a given bit-field. -/
def DAC128S085_SetChannelOutputs (hspi3 : SpiBus) (channelBits : Nat) :
    E_DAC_STATUS × SpiBus :=
  let temp : Nat := channelBits % 65536
  let tx := HAL_SPI_Transmit hspi3 temp SPI_TX_SIZE SPI_TIMEOUT_MS
  if tx.1 ≠ HAL_StatusTypeDef.HAL_OK then
    (E_DAC_STATUS.E_DAC_SPI_ERROR, tx.2)
  else
    (E_DAC_STATUS.E_DAC_OK, tx.2)

/-- The local `chBits` of `DAC128S085_DirectOutput`: the `int` expression
`UPDATE_SEL | (1 << channel)` stored into a `uint16_t`. -/
def chBits (channel : Nat) : Nat := (UPDATE_SEL ||| (1 <<< channel)) % 65536

/-- Directly set the output of a given DAC channel. -/
def DAC128S085_DirectOutput (hspi3 : SpiBus) (channel dacValue : Nat) :
    E_DAC_STATUS × SpiBus :=
  if (cTruth (decide (channel ≥ DAC_CH_MAX)) ||| cTruth (decide (dacValue > DAC_VAL_MAX))) ≠ 0 then
    (E_DAC_STATUS.E_DAC_PARAM_ERROR, hspi3)
  else
    let r := DAC128S085_SetChannelReg hspi3 channel dacValue
    if r.1 ≠ E_DAC_STATUS.E_DAC_OK then
      (r.1, r.2)
    else
      DAC128S085_SetChannelOutputs r.2 (chBits channel)

/-- Busy-wait of `Delay` milliseconds (vendor HAL). It transmits nothing: the bus is as it
was. -/
def HAL_Delay (hspi : SpiBus) (_Delay : Nat) : SpiBus := hspi

/-- What the self-test has done so far: the bus, the number of loop bodies run, and for
each call of `DAC128S085_DirectOutput` its channel, its value and the status it returned
(the C code drops that status). -/
structure TestRun where
  hspi3 : SpiBus
  iterations : Nat
  calls : List (Nat × Nat × E_DAC_STATUS)

/-- The loop of `DAC128S085_TEST_DirectOutput`, entered with the `uint16_t` counter at
`channel`: `for (...; channel < DAC_CH_MAX; ++channel)`. -/
def TEST_DirectOutput_loop (channel : Nat) (run : TestRun) : TestRun :=
  if channel < DAC_CH_MAX then
    let r1 := DAC128S085_DirectOutput run.hspi3 channel 4095
    let waited := HAL_Delay r1.2 50
    let r2 := DAC128S085_DirectOutput waited channel 0
    TEST_DirectOutput_loop ((channel + 1) % 65536)
      { hspi3 := r2.2,
        iterations := run.iterations + 1,
        calls := run.calls ++ [(channel, 4095, r1.1), (channel, 0, r2.1)] }
  else
    run
termination_by DAC_CH_MAX - channel
decreasing_by
  simp only [DAC_CH_MAX] at *
  omega

/-- Output a short pulse directly on each DAC channel sequentially. -/
def DAC128S085_TEST_DirectOutput (hspi3 : SpiBus) : TestRun :=
  TEST_DirectOutput_loop 0 { hspi3 := hspi3, iterations := 0, calls := [] }

/-- The plain composition the specification describes for the combined operation, with no
range check of its own: first `DAC128S085_SetChannelReg`; if its result is not `E_DAC_OK`
return that result; otherwise return `DAC128S085_SetChannelOutputs` of
`UPDATE_SEL | (1 << channel)`. -/
def directOutputComposition (hspi3 : SpiBus) (channel dacValue : Nat) :
    E_DAC_STATUS × SpiBus :=
  let r := DAC128S085_SetChannelReg hspi3 channel dacValue
  if r.1 ≠ E_DAC_STATUS.E_DAC_OK then
    r
  else
    DAC128S085_SetChannelOutputs r.2 (UPDATE_SEL ||| (1 <<< channel))

/-- The four words one loop body of the self-test sends for channel `c` when every send
succeeds: register word for `(c, 4095)`, enable word, register word for `(c, 0)`, enable
word. -/
def pulseWords (c : Nat) : List Nat :=
  [(c <<< 12) ||| 4095, UPDATE_SEL ||| (1 <<< c), (c <<< 12) ||| 0, UPDATE_SEL ||| (1 <<< c)]

/-! ## Test transports -/

/-- A transport on which every transmit succeeds; nothing sent yet. -/
def okBus : SpiBus := { answer := fun _ _ => HAL_StatusTypeDef.HAL_OK, sent := [] }

/-- A transport on which every transmit times out; nothing sent yet. -/
def deadBus : SpiBus := { answer := fun _ _ => HAL_StatusTypeDef.HAL_TIMEOUT, sent := [] }

/-- A transport whose first transmit succeeds and every later one reports an error. -/
def oneShotBus : SpiBus :=
  { answer := fun hist _ =>
      if hist.length = 0 then HAL_StatusTypeDef.HAL_OK else HAL_StatusTypeDef.HAL_ERROR,
    sent := [] }

example : (DAC128S085_SetChannelReg okBus 7 2048).2.sent = [0x7800] := by decide
example : (DAC128S085_SetChannelReg okBus 7 2048).1 = E_DAC_STATUS.E_DAC_OK := by decide
example : (DAC128S085_DirectOutput okBus 0 4095).2.sent = [0x0FFF, 0xA001] := by decide
example : (DAC128S085_DirectOutput oneShotBus 0 4095).1 = E_DAC_STATUS.E_DAC_SPI_ERROR := by decide
example : (DAC128S085_DirectOutput deadBus 3 5).2.sent = [0x3005] := by decide


/-! ## Auxiliary facts -/

/-- The range check written with the bitwise `|` of two C comparisons fires exactly when
the channel or the value is out of range. -/
theorem guard_iff (channel dacValue : Nat) :
    (cTruth (decide (channel ≥ DAC_CH_MAX)) ||| cTruth (decide (dacValue > DAC_VAL_MAX))) ≠ 0
      ↔ (channel ≥ 8 ∨ dacValue > 4095) := by
  by_cases hc : channel ≥ 8 <;> by_cases hv : dacValue > 4095 <;>
    simp [cTruth, DAC_CH_MAX, DAC_VAL_MAX, hc, hv]

/-- On in-range inputs the masks and the narrowing to 16 bits change nothing. -/
theorem regWord_eq (channel dacValue : Nat) (hc : channel < 8) (hv : dacValue < 4096) :
    (((channel &&& DAC_CH_MASK) <<< DAC_CH_SHIFT) ||| (dacValue &&& DAC_VAL_MASK)) % 65536
      = (channel <<< 12) ||| dacValue := by
  have h1 : channel &&& DAC_CH_MASK = channel := by
    have := Nat.and_pow_two_sub_one_eq_mod channel 3
    simp only [DAC_CH_MASK]
    norm_num at this
    rw [this]; omega
  have h2 : dacValue &&& DAC_VAL_MASK = dacValue := by
    have := Nat.and_pow_two_sub_one_eq_mod dacValue 12
    simp only [DAC_VAL_MASK]
    norm_num at this
    rw [this]; omega
  rw [h1, h2, DAC_CH_SHIFT]
  apply Nat.mod_eq_of_lt
  have : channel <<< 12 < 2 ^ 16 := by
    rw [Nat.shiftLeft_eq]; omega
  have hv2 : dacValue < 2 ^ 16 := by omega
  exact Nat.or_lt_two_pow this hv2

/-- Out-of-range arguments: the register write gives up before touching the bus. -/
theorem setChannelReg_rejects (b : SpiBus) (channel dacValue : Nat)
    (h : channel ≥ 8 ∨ dacValue > 4095) :
    DAC128S085_SetChannelReg b channel dacValue = (E_DAC_STATUS.E_DAC_PARAM_ERROR, b) := by
  unfold DAC128S085_SetChannelReg
  rw [if_pos ((guard_iff channel dacValue).2 h)]

/-- In-range arguments: the register write is one transmit of `(channel << 12) | value`. -/
theorem setChannelReg_accepts (b : SpiBus) (channel dacValue : Nat)
    (hc : channel < 8) (hv : dacValue < 4096) :
    DAC128S085_SetChannelReg b channel dacValue =
      (if b.answer b.sent ((channel <<< 12) ||| dacValue) = HAL_StatusTypeDef.HAL_OK
        then E_DAC_STATUS.E_DAC_OK else E_DAC_STATUS.E_DAC_SPI_ERROR,
       { b with sent := b.sent ++ [(channel <<< 12) ||| dacValue] }) := by
  have hg : ¬ ((cTruth (decide (channel ≥ DAC_CH_MAX))
      ||| cTruth (decide (dacValue > DAC_VAL_MAX))) ≠ 0) := by
    rw [guard_iff]; omega
  unfold DAC128S085_SetChannelReg
  rw [if_neg hg]
  simp only [regWord_eq channel dacValue hc hv, HAL_SPI_Transmit]
  by_cases ha : b.answer b.sent ((channel <<< 12) ||| dacValue) = HAL_StatusTypeDef.HAL_OK
  · simp [ha]
  · simp [ha]

/-- The output-enable write is one transmit of the word it is given. -/
theorem setChannelOutputs_eq (b : SpiBus) (w : Nat) (hw : w < 65536) :
    DAC128S085_SetChannelOutputs b w =
      (if b.answer b.sent w = HAL_StatusTypeDef.HAL_OK
        then E_DAC_STATUS.E_DAC_OK else E_DAC_STATUS.E_DAC_SPI_ERROR,
       { b with sent := b.sent ++ [w] }) := by
  unfold DAC128S085_SetChannelOutputs
  simp only [Nat.mod_eq_of_lt hw, HAL_SPI_Transmit]
  by_cases ha : b.answer b.sent w = HAL_StatusTypeDef.HAL_OK
  · simp [ha]
  · simp [ha]

/-- For a valid channel the enable word is `0xA000 | (1 << channel)`; nothing is lost in
the store to 16 bits. -/
theorem chBits_eq (channel : Nat) (hc : channel < 8) :
    chBits channel = 0xA000 ||| (1 <<< channel) ∧ 0xA000 ||| (1 <<< channel) < 65536 := by
  interval_cases channel <;> decide

/-- Out-of-range arguments: the combined operation gives up before touching the bus. -/
theorem directOutput_rejects (b : SpiBus) (channel dacValue : Nat)
    (h : channel ≥ 8 ∨ dacValue > 4095) :
    DAC128S085_DirectOutput b channel dacValue = (E_DAC_STATUS.E_DAC_PARAM_ERROR, b) := by
  unfold DAC128S085_DirectOutput
  rw [if_pos ((guard_iff channel dacValue).2 h)]

/-- In-range arguments: the combined operation is the register write followed, when that
succeeded, by the enable write of `0xA000 | (1 << channel)`. -/
theorem directOutput_accepts (b : SpiBus) (channel dacValue : Nat)
    (hc : channel < 8) (hv : dacValue < 4096) :
    DAC128S085_DirectOutput b channel dacValue =
      if b.answer b.sent ((channel <<< 12) ||| dacValue) = HAL_StatusTypeDef.HAL_OK then
        (if b.answer (b.sent ++ [(channel <<< 12) ||| dacValue]) (0xA000 ||| (1 <<< channel))
            = HAL_StatusTypeDef.HAL_OK
          then E_DAC_STATUS.E_DAC_OK else E_DAC_STATUS.E_DAC_SPI_ERROR,
         { b with sent := b.sent ++ [(channel <<< 12) ||| dacValue, 0xA000 ||| (1 <<< channel)] })
      else
        (E_DAC_STATUS.E_DAC_SPI_ERROR,
         { b with sent := b.sent ++ [(channel <<< 12) ||| dacValue] }) := by
  have hg : ¬ ((cTruth (decide (channel ≥ DAC_CH_MAX))
      ||| cTruth (decide (dacValue > DAC_VAL_MAX))) ≠ 0) := by
    rw [guard_iff]; omega
  obtain ⟨hcb, hlt⟩ := chBits_eq channel hc
  unfold DAC128S085_DirectOutput
  rw [if_neg hg]
  simp only [setChannelReg_accepts b channel dacValue hc hv, hcb]
  by_cases ha : b.answer b.sent ((channel <<< 12) ||| dacValue) = HAL_StatusTypeDef.HAL_OK
  · simp [ha, setChannelOutputs_eq _ _ hlt]
  · simp [ha]


/-! ## The register write -/

/-- C1 (as amended): for every channel in [0,7] and every value in [0,4095],
`DAC128S085_SetChannelReg` hands the transport the 16-bit word `(channel << 12) | value`:
the channel in bits [14:12], the value in bits [11:0], and no `0x8000` tag. -/
theorem setChannelReg_word (hspi3 : SpiBus) (channel dacValue : Nat)
    (hc : channel < 8) (hv : dacValue < 4096) :
    (DAC128S085_SetChannelReg hspi3 channel dacValue).2.sent
      = hspi3.sent ++ [(channel <<< 12) ||| dacValue] := by
  rw [setChannelReg_accepts hspi3 channel dacValue hc hv]

/-- C1, witness of the amended statement: channel 7, value 2048 on a fresh bus gives `0x7800`. -/
theorem setChannelReg_word_witness :
    (7 < 8 ∧ 2048 < 4096) ∧
      (DAC128S085_SetChannelReg okBus 7 2048).2.sent = okBus.sent ++ [(7 <<< 12) ||| 2048] ∧
      (7 <<< 12) ||| 2048 = 0x7800 :=
  ⟨by decide, setChannelReg_word okBus 7 2048 (by decide) (by decide), by decide⟩

/-- C1, as stated, fails: for channel 7 and value 2048 the word handed to the transport is
`0x7800`, not `0x8000 | (7 << 12) | 2048 = 0xF800`. -/
theorem setChannelReg_word_untagged :
    (DAC128S085_SetChannelReg okBus 7 2048).2.sent = [0x7800] ∧
      0x8000 ||| (7 <<< 12) ||| 2048 = 0xF800 ∧
      ¬ ((DAC128S085_SetChannelReg okBus 7 2048).2.sent
          = okBus.sent ++ [0x8000 ||| (7 <<< 12) ||| 2048]) := by
  decide

/-- C2: whenever the channel is 8 or more or the value exceeds 4095 (16-bit or not),
`DAC128S085_SetChannelReg` returns `E_DAC_PARAM_ERROR` and the transport is left exactly as
it was: nothing is sent, whatever the transport would have answered. -/
theorem setChannelReg_param_error (hspi3 : SpiBus) (channel dacValue : Nat)
    (h : channel ≥ 8 ∨ dacValue > 4095) :
    (DAC128S085_SetChannelReg hspi3 channel dacValue).1 = E_DAC_STATUS.E_DAC_PARAM_ERROR ∧
      (DAC128S085_SetChannelReg hspi3 channel dacValue).2.sent = hspi3.sent ∧
      (DAC128S085_SetChannelReg hspi3 channel dacValue).2.sent.length = hspi3.sent.length := by
  rw [setChannelReg_rejects hspi3 channel dacValue h]
  exact ⟨rfl, rfl, rfl⟩

/-- C2, witnesses: channel 8 with a valid value, and value 4096 with a valid channel, on a
transport that would have accepted the word. -/
theorem setChannelReg_param_error_witness :
    ((8 ≥ 8 ∨ 0 > 4095) ∧
      (DAC128S085_SetChannelReg okBus 8 0).1 = E_DAC_STATUS.E_DAC_PARAM_ERROR ∧
      (DAC128S085_SetChannelReg okBus 8 0).2.sent = okBus.sent ∧
      (DAC128S085_SetChannelReg okBus 8 0).2.sent.length = okBus.sent.length) ∧
    ((0 ≥ 8 ∨ 4096 > 4095) ∧
      (DAC128S085_SetChannelReg okBus 0 4096).1 = E_DAC_STATUS.E_DAC_PARAM_ERROR ∧
      (DAC128S085_SetChannelReg okBus 0 4096).2.sent = okBus.sent ∧
      (DAC128S085_SetChannelReg okBus 0 4096).2.sent.length = okBus.sent.length) :=
  ⟨⟨by decide, setChannelReg_param_error okBus 8 0 (by decide)⟩,
   ⟨by decide, setChannelReg_param_error okBus 0 4096 (by decide)⟩⟩

/-- C3: for every channel in [0,7] and value in [0,4095], `DAC128S085_SetChannelReg` invokes
the transport exactly once (one word is appended to what was sent), returns `E_DAC_OK` if
that send reports `HAL_OK` and `E_DAC_SPI_ERROR` if it reports anything else, and never
returns `E_DAC_PARAM_ERROR`. -/
theorem setChannelReg_status (hspi3 : SpiBus) (channel dacValue : Nat)
    (hc : channel < 8) (hv : dacValue < 4096) :
    (∃ w, (DAC128S085_SetChannelReg hspi3 channel dacValue).2.sent = hspi3.sent ++ [w] ∧
      (hspi3.answer hspi3.sent w = HAL_StatusTypeDef.HAL_OK →
        (DAC128S085_SetChannelReg hspi3 channel dacValue).1 = E_DAC_STATUS.E_DAC_OK) ∧
      (hspi3.answer hspi3.sent w ≠ HAL_StatusTypeDef.HAL_OK →
        (DAC128S085_SetChannelReg hspi3 channel dacValue).1 = E_DAC_STATUS.E_DAC_SPI_ERROR)) ∧
    (DAC128S085_SetChannelReg hspi3 channel dacValue).2.sent.length = hspi3.sent.length + 1 ∧
    (DAC128S085_SetChannelReg hspi3 channel dacValue).1 ≠ E_DAC_STATUS.E_DAC_PARAM_ERROR := by
  rw [setChannelReg_accepts hspi3 channel dacValue hc hv]
  refine ⟨⟨(channel <<< 12) ||| dacValue, rfl, ?_, ?_⟩, ?_, ?_⟩
  · intro h; simp [h]
  · intro h; simp [h]
  · simp
  · by_cases h : hspi3.answer hspi3.sent ((channel <<< 12) ||| dacValue)
        = HAL_StatusTypeDef.HAL_OK <;> simp [h]

/-- C3, witness: channel 3, value 5 on a transport that times out. -/
theorem setChannelReg_status_witness :
    (3 < 8 ∧ 5 < 4096) ∧
    ((∃ w, (DAC128S085_SetChannelReg deadBus 3 5).2.sent = deadBus.sent ++ [w] ∧
      (deadBus.answer deadBus.sent w = HAL_StatusTypeDef.HAL_OK →
        (DAC128S085_SetChannelReg deadBus 3 5).1 = E_DAC_STATUS.E_DAC_OK) ∧
      (deadBus.answer deadBus.sent w ≠ HAL_StatusTypeDef.HAL_OK →
        (DAC128S085_SetChannelReg deadBus 3 5).1 = E_DAC_STATUS.E_DAC_SPI_ERROR)) ∧
    (DAC128S085_SetChannelReg deadBus 3 5).2.sent.length = deadBus.sent.length + 1 ∧
    (DAC128S085_SetChannelReg deadBus 3 5).1 ≠ E_DAC_STATUS.E_DAC_PARAM_ERROR) ∧
    (DAC128S085_SetChannelReg deadBus 3 5).1 = E_DAC_STATUS.E_DAC_SPI_ERROR :=
  ⟨by decide, setChannelReg_status deadBus 3 5 (by decide) (by decide), by decide⟩

/-! ## The output-enable write -/

/-- C4: for every 16-bit word `w`, `DAC128S085_SetChannelOutputs` invokes the transport
exactly once with exactly `w`, returns `E_DAC_OK` when that send reports `HAL_OK` and
`E_DAC_SPI_ERROR` when it reports anything else, and never returns `E_DAC_PARAM_ERROR`. -/
theorem setChannelOutputs_verbatim (hspi3 : SpiBus) (w : Nat) (hw : w < 65536) :
    (DAC128S085_SetChannelOutputs hspi3 w).2.sent = hspi3.sent ++ [w] ∧
    (hspi3.answer hspi3.sent w = HAL_StatusTypeDef.HAL_OK →
      (DAC128S085_SetChannelOutputs hspi3 w).1 = E_DAC_STATUS.E_DAC_OK) ∧
    (hspi3.answer hspi3.sent w ≠ HAL_StatusTypeDef.HAL_OK →
      (DAC128S085_SetChannelOutputs hspi3 w).1 = E_DAC_STATUS.E_DAC_SPI_ERROR) ∧
    (DAC128S085_SetChannelOutputs hspi3 w).1 ≠ E_DAC_STATUS.E_DAC_PARAM_ERROR := by
  rw [setChannelOutputs_eq hspi3 w hw]
  refine ⟨rfl, ?_, ?_, ?_⟩
  · intro h; simp [h]
  · intro h; simp [h]
  · by_cases h : hspi3.answer hspi3.sent w = HAL_StatusTypeDef.HAL_OK <;> simp [h]

/-- C4, witness: the header's example word `UPDATE_SEL | CH_A_EN | CH_B_EN | CH_C_EN`, which
is `0xA000 | 0b00000111`, on a transport that accepts it. -/
theorem setChannelOutputs_verbatim_witness :
    (UPDATE_SEL ||| CH_A_EN ||| CH_B_EN ||| CH_C_EN = 0xA000 ||| 0b00000111 ∧
      UPDATE_SEL ||| CH_A_EN ||| CH_B_EN ||| CH_C_EN < 65536) ∧
    ((DAC128S085_SetChannelOutputs okBus (UPDATE_SEL ||| CH_A_EN ||| CH_B_EN ||| CH_C_EN)).2.sent
        = okBus.sent ++ [UPDATE_SEL ||| CH_A_EN ||| CH_B_EN ||| CH_C_EN] ∧
    (okBus.answer okBus.sent (UPDATE_SEL ||| CH_A_EN ||| CH_B_EN ||| CH_C_EN)
        = HAL_StatusTypeDef.HAL_OK →
      (DAC128S085_SetChannelOutputs okBus (UPDATE_SEL ||| CH_A_EN ||| CH_B_EN ||| CH_C_EN)).1
        = E_DAC_STATUS.E_DAC_OK) ∧
    (okBus.answer okBus.sent (UPDATE_SEL ||| CH_A_EN ||| CH_B_EN ||| CH_C_EN)
        ≠ HAL_StatusTypeDef.HAL_OK →
      (DAC128S085_SetChannelOutputs okBus (UPDATE_SEL ||| CH_A_EN ||| CH_B_EN ||| CH_C_EN)).1
        = E_DAC_STATUS.E_DAC_SPI_ERROR) ∧
    (DAC128S085_SetChannelOutputs okBus (UPDATE_SEL ||| CH_A_EN ||| CH_B_EN ||| CH_C_EN)).1
        ≠ E_DAC_STATUS.E_DAC_PARAM_ERROR) ∧
    (DAC128S085_SetChannelOutputs okBus (UPDATE_SEL ||| CH_A_EN ||| CH_B_EN ||| CH_C_EN)).1
        = E_DAC_STATUS.E_DAC_OK :=
  ⟨by decide,
   setChannelOutputs_verbatim okBus (UPDATE_SEL ||| CH_A_EN ||| CH_B_EN ||| CH_C_EN) (by decide),
   by decide⟩


/-! ## The combined operation -/

/-- C5 (as amended): for every channel in [0,7] and value in [0,4095], when both transport
sends succeed, `DAC128S085_DirectOutput` issues exactly two sends, in this order: first
`(channel << 12) | value` (no `0x8000` tag), second `0xA000 | (1 << channel)`, and returns
`E_DAC_OK`. -/
theorem directOutput_two_sends (hspi3 : SpiBus) (channel dacValue : Nat)
    (hc : channel < 8) (hv : dacValue < 4096)
    (h1 : hspi3.answer hspi3.sent ((channel <<< 12) ||| dacValue) = HAL_StatusTypeDef.HAL_OK)
    (h2 : hspi3.answer (hspi3.sent ++ [(channel <<< 12) ||| dacValue])
      (0xA000 ||| (1 <<< channel)) = HAL_StatusTypeDef.HAL_OK) :
    (DAC128S085_DirectOutput hspi3 channel dacValue).2.sent
        = hspi3.sent ++ [(channel <<< 12) ||| dacValue, 0xA000 ||| (1 <<< channel)] ∧
      (DAC128S085_DirectOutput hspi3 channel dacValue).1 = E_DAC_STATUS.E_DAC_OK := by
  rw [directOutput_accepts hspi3 channel dacValue hc hv, if_pos h1, if_pos h2]
  exact ⟨rfl, rfl⟩

/-- C5, witness of the amended statement: channel 0, value 4095 on a transport that accepts
everything sends `0x0FFF` and then `0xA001`. -/
theorem directOutput_two_sends_witness :
    (0 < 8 ∧ 4095 < 4096 ∧
      okBus.answer okBus.sent ((0 <<< 12) ||| 4095) = HAL_StatusTypeDef.HAL_OK ∧
      okBus.answer (okBus.sent ++ [(0 <<< 12) ||| 4095]) (0xA000 ||| (1 <<< 0))
        = HAL_StatusTypeDef.HAL_OK) ∧
    ((DAC128S085_DirectOutput okBus 0 4095).2.sent
        = okBus.sent ++ [(0 <<< 12) ||| 4095, 0xA000 ||| (1 <<< 0)] ∧
      (DAC128S085_DirectOutput okBus 0 4095).1 = E_DAC_STATUS.E_DAC_OK) ∧
    okBus.sent ++ [(0 <<< 12) ||| 4095, 0xA000 ||| (1 <<< 0)] = [0x0FFF, 0xA001] :=
  ⟨by decide, directOutput_two_sends okBus 0 4095 (by decide) (by decide) rfl rfl, by decide⟩

/-- C5, as stated, fails: for channel 0 and value 4095 with every send succeeding, the two
words sent are `0x0FFF` and `0xA001`; the first is not `0x8000 | (0 << 12) | 4095 = 0x8FFF`. -/
theorem directOutput_first_word_untagged :
    (DAC128S085_DirectOutput okBus 0 4095).1 = E_DAC_STATUS.E_DAC_OK ∧
      (DAC128S085_DirectOutput okBus 0 4095).2.sent = [0x0FFF, 0xA001] ∧
      0x8000 ||| (0 <<< 12) ||| 4095 = 0x8FFF ∧
      ¬ ((DAC128S085_DirectOutput okBus 0 4095).2.sent
          = okBus.sent ++ [0x8000 ||| (0 <<< 12) ||| 4095, 0xA000 ||| (1 <<< 0)]) := by
  decide

/-- C6: for every channel in [0,7] and value in [0,4095], if the first transport send (the
register write) does not report `HAL_OK`, `DAC128S085_DirectOutput` returns
`E_DAC_SPI_ERROR` and exactly one word, the register word, has been sent: the
output-enable word is never sent. -/
theorem directOutput_first_send_fails (hspi3 : SpiBus) (channel dacValue : Nat)
    (hc : channel < 8) (hv : dacValue < 4096)
    (h1 : hspi3.answer hspi3.sent ((channel <<< 12) ||| dacValue) ≠ HAL_StatusTypeDef.HAL_OK) :
    (DAC128S085_DirectOutput hspi3 channel dacValue).1 = E_DAC_STATUS.E_DAC_SPI_ERROR ∧
      (DAC128S085_DirectOutput hspi3 channel dacValue).2.sent
        = hspi3.sent ++ [(channel <<< 12) ||| dacValue] ∧
      (DAC128S085_DirectOutput hspi3 channel dacValue).2.sent.length
        = hspi3.sent.length + 1 := by
  rw [directOutput_accepts hspi3 channel dacValue hc hv, if_neg h1]
  refine ⟨rfl, rfl, ?_⟩
  simp

/-- C6, witness: channel 3, value 5 on a transport that times out. -/
theorem directOutput_first_send_fails_witness :
    (3 < 8 ∧ 5 < 4096 ∧
      deadBus.answer deadBus.sent ((3 <<< 12) ||| 5) ≠ HAL_StatusTypeDef.HAL_OK) ∧
    ((DAC128S085_DirectOutput deadBus 3 5).1 = E_DAC_STATUS.E_DAC_SPI_ERROR ∧
      (DAC128S085_DirectOutput deadBus 3 5).2.sent = deadBus.sent ++ [(3 <<< 12) ||| 5] ∧
      (DAC128S085_DirectOutput deadBus 3 5).2.sent.length = deadBus.sent.length + 1) :=
  ⟨by decide, directOutput_first_send_fails deadBus 3 5 (by decide) (by decide) (by decide)⟩

/-- C7: for every channel in [0,7] and value in [0,4095], if the first transport send
reports `HAL_OK` and the second (output-enable) send does not, `DAC128S085_DirectOutput`
returns `E_DAC_SPI_ERROR` and exactly two sends have occurred. -/
theorem directOutput_second_send_fails (hspi3 : SpiBus) (channel dacValue : Nat)
    (hc : channel < 8) (hv : dacValue < 4096)
    (h1 : hspi3.answer hspi3.sent ((channel <<< 12) ||| dacValue) = HAL_StatusTypeDef.HAL_OK)
    (h2 : hspi3.answer (hspi3.sent ++ [(channel <<< 12) ||| dacValue])
      (0xA000 ||| (1 <<< channel)) ≠ HAL_StatusTypeDef.HAL_OK) :
    (DAC128S085_DirectOutput hspi3 channel dacValue).1 = E_DAC_STATUS.E_DAC_SPI_ERROR ∧
      (DAC128S085_DirectOutput hspi3 channel dacValue).2.sent
        = hspi3.sent ++ [(channel <<< 12) ||| dacValue, 0xA000 ||| (1 <<< channel)] ∧
      (DAC128S085_DirectOutput hspi3 channel dacValue).2.sent.length
        = hspi3.sent.length + 2 := by
  rw [directOutput_accepts hspi3 channel dacValue hc hv, if_pos h1, if_neg h2]
  refine ⟨rfl, rfl, ?_⟩
  simp

/-- C7, witness: channel 0, value 4095 on a transport that accepts one word and then reports
errors. -/
theorem directOutput_second_send_fails_witness :
    (0 < 8 ∧ 4095 < 4096 ∧
      oneShotBus.answer oneShotBus.sent ((0 <<< 12) ||| 4095) = HAL_StatusTypeDef.HAL_OK ∧
      oneShotBus.answer (oneShotBus.sent ++ [(0 <<< 12) ||| 4095]) (0xA000 ||| (1 <<< 0))
        ≠ HAL_StatusTypeDef.HAL_OK) ∧
    ((DAC128S085_DirectOutput oneShotBus 0 4095).1 = E_DAC_STATUS.E_DAC_SPI_ERROR ∧
      (DAC128S085_DirectOutput oneShotBus 0 4095).2.sent
        = oneShotBus.sent ++ [(0 <<< 12) ||| 4095, 0xA000 ||| (1 <<< 0)] ∧
      (DAC128S085_DirectOutput oneShotBus 0 4095).2.sent.length
        = oneShotBus.sent.length + 2) :=
  ⟨by decide,
   directOutput_second_send_fails oneShotBus 0 4095 (by decide) (by decide) (by decide)
     (by decide)⟩

/-- C8: for every channel and value (16-bit or not) and every transport behaviour,
`DAC128S085_DirectOutput` returns `E_DAC_PARAM_ERROR` if and only if the channel is 8 or
more or the value exceeds 4095, and whenever it returns `E_DAC_PARAM_ERROR` nothing has
been sent. -/
theorem directOutput_param_error_iff (hspi3 : SpiBus) (channel dacValue : Nat) :
    ((DAC128S085_DirectOutput hspi3 channel dacValue).1 = E_DAC_STATUS.E_DAC_PARAM_ERROR
        ↔ (channel ≥ 8 ∨ dacValue > 4095)) ∧
      ((DAC128S085_DirectOutput hspi3 channel dacValue).1 = E_DAC_STATUS.E_DAC_PARAM_ERROR →
        (DAC128S085_DirectOutput hspi3 channel dacValue).2.sent = hspi3.sent) := by
  by_cases h : channel ≥ 8 ∨ dacValue > 4095
  · rw [directOutput_rejects hspi3 channel dacValue h]
    exact ⟨⟨fun _ => h, fun _ => rfl⟩, fun _ => rfl⟩
  · have hc : channel < 8 := by omega
    have hv : dacValue < 4096 := by omega
    have hne : (DAC128S085_DirectOutput hspi3 channel dacValue).1
        ≠ E_DAC_STATUS.E_DAC_PARAM_ERROR := by
      rw [directOutput_accepts hspi3 channel dacValue hc hv]
      split
      · split <;> simp
      · simp
    exact ⟨⟨fun he => absurd he hne, fun hr => absurd hr h⟩, fun he => absurd he hne⟩

/-- C8, instances: channel 8 and value 4096 are each rejected with nothing sent, and an
in-range call on a transport that times out reports the transport, not the parameters. -/
theorem directOutput_param_error_iff_witness :
    (DAC128S085_DirectOutput okBus 8 0).1 = E_DAC_STATUS.E_DAC_PARAM_ERROR ∧
      (DAC128S085_DirectOutput okBus 8 0).2.sent = okBus.sent ∧
      (DAC128S085_DirectOutput okBus 0 4096).1 = E_DAC_STATUS.E_DAC_PARAM_ERROR ∧
      (DAC128S085_DirectOutput okBus 0 4096).2.sent = okBus.sent ∧
      (DAC128S085_DirectOutput deadBus 7 4095).1 ≠ E_DAC_STATUS.E_DAC_PARAM_ERROR :=
  have h8 := directOutput_param_error_iff okBus 8 0
  have h4096 := directOutput_param_error_iff okBus 0 4096
  have hin := directOutput_param_error_iff deadBus 7 4095
  ⟨h8.1.2 (by decide), h8.2 (h8.1.2 (by decide)),
   h4096.1.2 (by decide), h4096.2 (h4096.1.2 (by decide)),
   fun he => absurd (hin.1.1 he) (by decide)⟩


/-- C9: for every channel in [0,7], the enable word `chBits` that `DAC128S085_DirectOutput`
passes to `DAC128S085_SetChannelOutputs` is `UPDATE_SEL` OR-ed with the header's enable flag
of that one channel (`CH_A_EN` for 0 up to `CH_H_EN` for 7). Its top nibble is `0xA`, bits
[11:8] are zero, and among bits [7:0] bit `channel` is set and no other. The `int`
expression `UPDATE_SEL | (1 << channel)` is below `65536`, so the store into the
`uint16_t` loses nothing. -/
theorem directOutput_enable_word (channel : Nat) (hc : channel < 8) :
    (∃ e, channelEnables[channel]? = some e ∧ chBits channel = UPDATE_SEL ||| e) ∧
    chBits channel >>> 12 = 0xA ∧
    (chBits channel >>> 8) &&& 0xF = 0 ∧
    (∀ i, i < 8 → ((chBits channel).testBit i = true ↔ i = channel)) ∧
    (UPDATE_SEL ||| (1 <<< channel) < 65536 ∧
      chBits channel = UPDATE_SEL ||| (1 <<< channel)) ∧
    (∀ (hspi3 : SpiBus) (dacValue : Nat), dacValue < 4096 →
      DAC128S085_DirectOutput hspi3 channel dacValue =
        if (DAC128S085_SetChannelReg hspi3 channel dacValue).1 ≠ E_DAC_STATUS.E_DAC_OK then
          DAC128S085_SetChannelReg hspi3 channel dacValue
        else
          DAC128S085_SetChannelOutputs (DAC128S085_SetChannelReg hspi3 channel dacValue).2
            (chBits channel)) := by
  refine ⟨?_, ?_, ?_, ?_, ?_, ?_⟩
  · interval_cases channel <;> exact ⟨_, rfl, by decide⟩
  · interval_cases channel <;> decide
  · interval_cases channel <;> decide
  · interval_cases channel <;> decide
  · interval_cases channel <;> decide
  · intro hspi3 dacValue hv
    have hg : ¬ ((cTruth (decide (channel ≥ DAC_CH_MAX))
        ||| cTruth (decide (dacValue > DAC_VAL_MAX))) ≠ 0) := by
      rw [guard_iff]; omega
    unfold DAC128S085_DirectOutput
    rw [if_neg hg]

/-- C9, witness: channel 7 selects `CH_H_EN`, and the enable word is `0xA080`. -/
theorem directOutput_enable_word_witness :
    7 < 8 ∧ chBits 7 = UPDATE_SEL ||| CH_H_EN ∧ chBits 7 = 0xA080 ∧
      (chBits 7 >>> 8) &&& 0xF = 0 ∧ (chBits 7).testBit 7 = true :=
  have h := directOutput_enable_word 7 (by decide)
  ⟨by decide, by decide, by decide, h.2.2.1, (h.2.2.2.1 7 (by decide)).2 rfl⟩

/-! ## Independence of calls -/

/-- C10: the words `DAC128S085_SetChannelReg` hands to the transport depend on its arguments
only. For every channel and value there is one list `ws` of at most one word such that on
every bus, whatever was sent before and whatever the transport answers, the call appends
exactly `ws`; the call leaves the transport's behaviour untouched; a second call with the
same arguments right after the first appends `ws` again; and two calls with the same
arguments return the same status whenever the transport gives them the same answer. -/
theorem setChannelReg_pure (channel dacValue : Nat) :
    ∃ ws : List Nat, ws.length ≤ 1 ∧ ∀ b : SpiBus,
      (DAC128S085_SetChannelReg b channel dacValue).2.sent = b.sent ++ ws ∧
      (DAC128S085_SetChannelReg b channel dacValue).2.answer = b.answer ∧
      (DAC128S085_SetChannelReg (DAC128S085_SetChannelReg b channel dacValue).2
          channel dacValue).2.sent = (b.sent ++ ws) ++ ws ∧
      ∀ b2 : SpiBus, (∀ w, b.answer b.sent w = b2.answer b2.sent w) →
        (DAC128S085_SetChannelReg b channel dacValue).1
          = (DAC128S085_SetChannelReg b2 channel dacValue).1 := by
  by_cases h : channel ≥ 8 ∨ dacValue > 4095
  · refine ⟨[], by simp, fun b => ?_⟩
    simp only [setChannelReg_rejects _ channel dacValue h]
    simp
  · have hc : channel < 8 := by omega
    have hv : dacValue < 4096 := by omega
    refine ⟨[(channel <<< 12) ||| dacValue], by simp, fun b => ?_⟩
    simp only [setChannelReg_accepts _ channel dacValue hc hv]
    refine ⟨trivial, trivial, trivial, fun b2 hb => ?_⟩
    rw [hb]

/-- C10, instance: channel 7, value 2048 puts the same single word `0x7800` on a transport
that accepts it, on one that times out, and again on the latter after that failure; a call
rejected for its parameters in between changes nothing. -/
theorem setChannelReg_pure_witness :
    (∃ ws : List Nat, ws.length ≤ 1 ∧
      (DAC128S085_SetChannelReg okBus 7 2048).2.sent = okBus.sent ++ ws ∧
      (DAC128S085_SetChannelReg deadBus 7 2048).2.sent = deadBus.sent ++ ws ∧
      (DAC128S085_SetChannelReg (DAC128S085_SetChannelReg deadBus 7 2048).2 7 2048).2.sent
        = (deadBus.sent ++ ws) ++ ws) ∧
    (DAC128S085_SetChannelReg okBus 7 2048).2.sent = [0x7800] ∧
    (DAC128S085_SetChannelReg (DAC128S085_SetChannelReg deadBus 7 2048).2 7 2048).2.sent
      = [0x7800, 0x7800] ∧
    (DAC128S085_SetChannelReg (DAC128S085_SetChannelReg okBus 8 4096).2 7 2048).2.sent
      = [0x7800] :=
  ⟨(setChannelReg_pure 7 2048).elim fun ws h =>
      ⟨ws, h.1, (h.2 okBus).1, (h.2 deadBus).1, (h.2 deadBus).2.2.1⟩,
   by decide, by decide, by decide⟩


/-! ## The combined operation as a composition -/

/-- C11: for every channel and value (in range or not, 16-bit or not) and every transport
behaviour, `DAC128S085_DirectOutput` returns the same status and leaves the same bus (the
same sequence of sends) as the plain composition of `DAC128S085_SetChannelReg` and
`DAC128S085_SetChannelOutputs (UPDATE_SEL | (1 << channel))`: its own range check changes
nothing observable. -/
theorem directOutput_eq_composition (hspi3 : SpiBus) (channel dacValue : Nat) :
    DAC128S085_DirectOutput hspi3 channel dacValue
        = directOutputComposition hspi3 channel dacValue ∧
      (DAC128S085_DirectOutput hspi3 channel dacValue).1
        = (directOutputComposition hspi3 channel dacValue).1 ∧
      (DAC128S085_DirectOutput hspi3 channel dacValue).2.sent
        = (directOutputComposition hspi3 channel dacValue).2.sent := by
  have key : DAC128S085_DirectOutput hspi3 channel dacValue
      = directOutputComposition hspi3 channel dacValue := by
    by_cases h : channel ≥ 8 ∨ dacValue > 4095
    · rw [directOutput_rejects hspi3 channel dacValue h]
      unfold directOutputComposition
      simp only [setChannelReg_rejects hspi3 channel dacValue h]
      simp
    · have hc : channel < 8 := by omega
      have hv : dacValue < 4096 := by omega
      have hg : ¬ ((cTruth (decide (channel ≥ DAC_CH_MAX))
          ||| cTruth (decide (dacValue > DAC_VAL_MAX))) ≠ 0) := by
        rw [guard_iff]; omega
      have hcb : chBits channel = UPDATE_SEL ||| (1 <<< channel) := (chBits_eq channel hc).1
      unfold DAC128S085_DirectOutput directOutputComposition
      rw [if_neg hg, hcb]
  exact ⟨key, by rw [key], by rw [key]⟩

/-- C11, instances: the two agree on a rejected call (channel 8), on a call whose first
send fails, and on a call whose second send fails. -/
theorem directOutput_eq_composition_witness :
    DAC128S085_DirectOutput okBus 8 0 = directOutputComposition okBus 8 0 ∧
      DAC128S085_DirectOutput deadBus 3 5 = directOutputComposition deadBus 3 5 ∧
      DAC128S085_DirectOutput oneShotBus 0 4095 = directOutputComposition oneShotBus 0 4095 ∧
      (directOutputComposition okBus 8 0).1 = E_DAC_STATUS.E_DAC_PARAM_ERROR ∧
      (directOutputComposition okBus 8 0).2.sent = [] ∧
      (directOutputComposition oneShotBus 0 4095).2.sent = [0x0FFF, 0xA001] :=
  ⟨(directOutput_eq_composition okBus 8 0).1, (directOutput_eq_composition deadBus 3 5).1,
   (directOutput_eq_composition oneShotBus 0 4095).1, by decide, by decide, by decide⟩

/-! ## Shape of the register word -/

/-- For in-range inputs the register word is `4096 * channel + value`. -/
theorem regWord_eq_add (channel dacValue : Nat) (hv : dacValue < 4096) :
    (channel <<< 12) ||| dacValue = 4096 * channel + dacValue := by
  have h := Nat.mul_add_lt_is_or (i := 12) (b := dacValue) (by omega) channel
  rw [Nat.shiftLeft_eq, Nat.mul_comm channel (2 ^ 12), ← h]

/-- Channel and value can be read back from the register word. -/
theorem regWord_decode (channel dacValue : Nat) (hc : channel < 8) (hv : dacValue < 4096) :
    (((channel <<< 12) ||| dacValue) >>> DAC_CH_SHIFT) &&& DAC_CH_MASK = channel ∧
      ((channel <<< 12) ||| dacValue) &&& DAC_VAL_MASK = dacValue := by
  have h3 := Nat.and_pow_two_sub_one_eq_mod ((4096 * channel + dacValue) >>> 12) 3
  have h12 := Nat.and_pow_two_sub_one_eq_mod (4096 * channel + dacValue) 12
  norm_num at h3 h12
  rw [regWord_eq_add channel dacValue hv]
  simp only [DAC_CH_SHIFT, DAC_CH_MASK, DAC_VAL_MASK]
  rw [h3, h12, Nat.shiftRight_eq_div_pow]
  constructor <;> omega

/-- C12: the register-write encoding is lossless on valid inputs. For every channel in
[0,7] and value in [0,4095] the one word `w` that `DAC128S085_SetChannelReg` sends
satisfies `((w >> 12) & 0x7) = channel` and `(w & 0xFFF) = value`; hence any in-range call
that sends the same word has the same channel and the same value. -/
theorem setChannelReg_lossless (hspi3 : SpiBus) (channel dacValue : Nat)
    (hc : channel < 8) (hv : dacValue < 4096) :
    ∃ w, (DAC128S085_SetChannelReg hspi3 channel dacValue).2.sent = hspi3.sent ++ [w] ∧
      (w >>> 12) &&& 0x7 = channel ∧
      w &&& 0xFFF = dacValue ∧
      ∀ (b2 : SpiBus) (channel2 dacValue2 : Nat), channel2 < 8 → dacValue2 < 4096 →
        (DAC128S085_SetChannelReg b2 channel2 dacValue2).2.sent = b2.sent ++ [w] →
        channel2 = channel ∧ dacValue2 = dacValue := by
  obtain ⟨hd1, hd2⟩ := regWord_decode channel dacValue hc hv
  refine ⟨(channel <<< 12) ||| dacValue, ?_, hd1, hd2, ?_⟩
  · rw [setChannelReg_accepts hspi3 channel dacValue hc hv]
  · intro b2 channel2 dacValue2 hc2 hv2 hsent
    rw [setChannelReg_accepts b2 channel2 dacValue2 hc2 hv2] at hsent
    have hw : (channel2 <<< 12) ||| dacValue2 = (channel <<< 12) ||| dacValue := by
      simpa using hsent
    rw [regWord_eq_add channel2 dacValue2 hv2, regWord_eq_add channel dacValue hv] at hw
    constructor <;> omega

/-- C12, witness: channel 7, value 2048 sends `0x7800`, which decodes to 7 and 2048. -/
theorem setChannelReg_lossless_witness :
    (7 < 8 ∧ 2048 < 4096) ∧
    (∃ w, (DAC128S085_SetChannelReg okBus 7 2048).2.sent = okBus.sent ++ [w] ∧
      (w >>> 12) &&& 0x7 = 7 ∧
      w &&& 0xFFF = 2048 ∧
      ∀ (b2 : SpiBus) (channel2 dacValue2 : Nat), channel2 < 8 → dacValue2 < 4096 →
        (DAC128S085_SetChannelReg b2 channel2 dacValue2).2.sent = b2.sent ++ [w] →
        channel2 = 7 ∧ dacValue2 = 2048) ∧
    ((0x7800 >>> 12) &&& 0x7 = 7 ∧ 0x7800 &&& 0xFFF = 2048) :=
  ⟨by decide, setChannelReg_lossless okBus 7 2048 (by decide) (by decide), by decide⟩


/-- The enable word of a valid channel is at least `0xA000`. -/
theorem enableWord_ge (channel : Nat) (hc : channel < 8) :
    0xA000 ≤ 0xA000 ||| (1 <<< channel) := by
  interval_cases channel <;> decide

/-- C13: for every channel and value that pass validation (channel in [0,7], value in
[0,4095]), the one word `w` that `DAC128S085_SetChannelReg` hands to the transport has
bit 15 clear (`w ≤ 0x7FFF`). So it differs from every word whose top nibble is one of the
tags `WRM_MODE`, `WRT_MODE`, `UPDATE_SEL`, `CHA_WRITE`, `BROADCAST`, from the enable word
of every channel, and from the second word whenever `DAC128S085_DirectOutput` sends two. -/
theorem setChannelReg_bit15_clear (hspi3 : SpiBus) (channel dacValue : Nat)
    (hc : channel < 8) (hv : dacValue < 4096) :
    ∃ w, (DAC128S085_SetChannelReg hspi3 channel dacValue).2.sent = hspi3.sent ++ [w] ∧
      w ≤ 0x7FFF ∧
      w.testBit 15 = false ∧
      (∀ x tag, tag ∈ [WRM_MODE, WRT_MODE, UPDATE_SEL, CHA_WRITE, BROADCAST] →
        x &&& 0xF000 = tag → w ≠ x) ∧
      (∀ channel2, channel2 < 8 → w ≠ chBits channel2) ∧
      (∀ w1 w2, (DAC128S085_DirectOutput hspi3 channel dacValue).2.sent
          = hspi3.sent ++ [w1, w2] → w1 = w ∧ w1 ≠ w2) := by
  have hle : (channel <<< 12) ||| dacValue ≤ 0x7FFF := by
    rw [regWord_eq_add channel dacValue hv]; omega
  have hen : ∀ channel2, channel2 < 8 → (channel <<< 12) ||| dacValue ≠ chBits channel2 := by
    intro channel2 hc2 heq
    have h1 : 0xA000 ≤ 0xA000 ||| (1 <<< channel2) := enableWord_ge channel2 hc2
    rw [(chBits_eq channel2 hc2).1] at heq
    omega
  refine ⟨(channel <<< 12) ||| dacValue, ?_, hle, ?_, ?_, hen, ?_⟩
  · rw [setChannelReg_accepts hspi3 channel dacValue hc hv]
  · apply Nat.testBit_lt_two_pow
    omega
  · intro x tag htag hx heq
    have hand : x &&& 0xF000 ≤ x := Nat.and_le_left
    have htag2 : 0x8000 ≤ tag := by
      simp only [WRM_MODE, WRT_MODE, UPDATE_SEL, CHA_WRITE, BROADCAST, List.mem_cons,
        List.mem_singleton, List.not_mem_nil, or_false] at htag
      omega
    omega
  · intro w1 w2 hsent
    rw [directOutput_accepts hspi3 channel dacValue hc hv] at hsent
    by_cases ha : hspi3.answer hspi3.sent ((channel <<< 12) ||| dacValue)
        = HAL_StatusTypeDef.HAL_OK
    · rw [if_pos ha] at hsent
      have hl : [(channel <<< 12) ||| dacValue, 0xA000 ||| (1 <<< channel)] = [w1, w2] :=
        List.append_cancel_left hsent
      have h1 : (channel <<< 12) ||| dacValue = w1 := by simpa using (List.cons.inj hl).1
      have h2 : 0xA000 ||| (1 <<< channel) = w2 := by simpa using (List.cons.inj hl).2
      have h3 : 0xA000 ≤ 0xA000 ||| (1 <<< channel) := enableWord_ge channel hc
      exact ⟨h1.symm, by omega⟩
    · rw [if_neg ha] at hsent
      have hl : [(channel <<< 12) ||| dacValue] = [w1, w2] := List.append_cancel_left hsent
      simp at hl

/-- C13, witness: channel 7 with value 4095 sends the largest register word, `0x7FFF`. -/
theorem setChannelReg_bit15_clear_witness :
    (7 < 8 ∧ 4095 < 4096) ∧
    (∃ w, (DAC128S085_SetChannelReg okBus 7 4095).2.sent = okBus.sent ++ [w] ∧
      w ≤ 0x7FFF ∧
      w.testBit 15 = false ∧
      (∀ x tag, tag ∈ [WRM_MODE, WRT_MODE, UPDATE_SEL, CHA_WRITE, BROADCAST] →
        x &&& 0xF000 = tag → w ≠ x) ∧
      (∀ channel2, channel2 < 8 → w ≠ chBits channel2) ∧
      (∀ w1 w2, (DAC128S085_DirectOutput okBus 7 4095).2.sent
          = okBus.sent ++ [w1, w2] → w1 = w ∧ w1 ≠ w2)) ∧
    (DAC128S085_SetChannelReg okBus 7 4095).2.sent = [0x7FFF] ∧
    (DAC128S085_DirectOutput okBus 7 4095).2.sent = [0x7FFF, 0xA080] :=
  ⟨by decide, setChannelReg_bit15_clear okBus 7 4095 (by decide) (by decide),
   by decide, by decide⟩


/-! ## The self-test -/

/-- In-range arguments are never answered with `E_DAC_PARAM_ERROR`. -/
theorem directOutput_not_param (b : SpiBus) (channel dacValue : Nat)
    (hc : channel < 8) (hv : dacValue < 4096) :
    (DAC128S085_DirectOutput b channel dacValue).1 ≠ E_DAC_STATUS.E_DAC_PARAM_ERROR := by
  rw [directOutput_accepts b channel dacValue hc hv]
  split
  · split <;> simp
  · simp

/-- On a transport that accepts every word, an in-range combined operation sends its two
words and leaves the transport as accepting as before. -/
theorem directOutput_all_ok (b : SpiBus) (channel dacValue : Nat)
    (hc : channel < 8) (hv : dacValue < 4096)
    (hok : ∀ hist w, b.answer hist w = HAL_StatusTypeDef.HAL_OK) :
    (DAC128S085_DirectOutput b channel dacValue).2.sent
        = b.sent ++ [(channel <<< 12) ||| dacValue, UPDATE_SEL ||| (1 <<< channel)] ∧
      (DAC128S085_DirectOutput b channel dacValue).2.answer = b.answer := by
  rw [directOutput_accepts b channel dacValue hc hv, if_pos (hok _ _)]
  exact ⟨rfl, rfl⟩

/-- One pass through the loop body, for a counter below 8. -/
theorem test_loop_step (channel : Nat) (hc : channel < 8) (run : TestRun) :
    TEST_DirectOutput_loop channel run =
      TEST_DirectOutput_loop (channel + 1)
        { hspi3 := (DAC128S085_DirectOutput
            (HAL_Delay (DAC128S085_DirectOutput run.hspi3 channel 4095).2 50) channel 0).2,
          iterations := run.iterations + 1,
          calls := run.calls ++
            [(channel, 4095, (DAC128S085_DirectOutput run.hspi3 channel 4095).1),
             (channel, 0, (DAC128S085_DirectOutput
                (HAL_Delay (DAC128S085_DirectOutput run.hspi3 channel 4095).2 50)
                channel 0).1)] } := by
  have hlt : channel < DAC_CH_MAX := hc
  have hwrap : (channel + 1) % 65536 = channel + 1 := by omega
  rw [TEST_DirectOutput_loop, if_pos hlt]
  simp only [hwrap]

/-- The loop stops when the counter reaches 8. -/
theorem test_loop_exit (run : TestRun) : TEST_DirectOutput_loop 8 run = run := by
  have hge : ¬ (8 < DAC_CH_MAX) := by decide
  rw [TEST_DirectOutput_loop, if_neg hge]

/-- Entered at `channel` with `n` channels to go, the loop runs its body `n` times, calls
the combined operation for `channel, ..., 7` with 4095 and then 0, and none of those calls
is answered with `E_DAC_PARAM_ERROR`. -/
theorem test_loop_calls (n : Nat) : ∀ (channel : Nat) (run : TestRun), channel + n = 8 →
    (TEST_DirectOutput_loop channel run).iterations = run.iterations + n ∧
    (TEST_DirectOutput_loop channel run).calls.map (fun call => (call.1, call.2.1))
      = run.calls.map (fun call => (call.1, call.2.1))
          ++ (List.range' channel n).flatMap (fun c => [(c, 4095), (c, 0)]) ∧
    ((∀ call ∈ run.calls, call.2.2 ≠ E_DAC_STATUS.E_DAC_PARAM_ERROR) →
      ∀ call ∈ (TEST_DirectOutput_loop channel run).calls,
        call.2.2 ≠ E_DAC_STATUS.E_DAC_PARAM_ERROR) := by
  induction n with
  | zero =>
    intro channel run h
    have h8 : channel = 8 := by omega
    subst h8
    rw [test_loop_exit]
    simp
  | succ n ih =>
    intro channel run h
    have hc : channel < 8 := by omega
    rw [test_loop_step channel hc run]
    obtain ⟨h1, h2, h3⟩ := ih (channel + 1) _ (show channel + 1 + n = 8 by omega)
    refine ⟨?_, ?_, ?_⟩
    · rw [h1]
      show run.iterations + 1 + n = run.iterations + (n + 1)
      omega
    · rw [h2, List.range'_succ]
      simp
    · intro hrun
      apply h3
      intro call hcall
      rcases List.mem_append.1 hcall with hold | hnew
      · exact hrun call hold
      · simp only [List.mem_cons, List.mem_singleton, List.not_mem_nil, or_false] at hnew
        rcases hnew with rfl | rfl
        · exact directOutput_not_param _ channel 4095 hc (by omega)
        · exact directOutput_not_param _ channel 0 hc (by omega)

/-- On a transport that accepts every word, the loop entered at `channel` with `n`
channels to go sends the four pulse words of `channel, ..., 7` in turn. -/
theorem test_loop_sends (n : Nat) : ∀ (channel : Nat) (run : TestRun), channel + n = 8 →
    (∀ hist w, run.hspi3.answer hist w = HAL_StatusTypeDef.HAL_OK) →
    (TEST_DirectOutput_loop channel run).hspi3.sent
      = run.hspi3.sent ++ (List.range' channel n).flatMap pulseWords := by
  induction n with
  | zero =>
    intro channel run h _
    have h8 : channel = 8 := by omega
    subst h8
    rw [test_loop_exit]
    simp
  | succ n ih =>
    intro channel run h hok
    have hc : channel < 8 := by omega
    obtain ⟨s1, a1⟩ := directOutput_all_ok run.hspi3 channel 4095 hc (by omega) hok
    have hok1 : ∀ hist w, (HAL_Delay (DAC128S085_DirectOutput run.hspi3 channel 4095).2 50).answer
        hist w = HAL_StatusTypeDef.HAL_OK := by
      intro hist w
      simp only [HAL_Delay, a1]
      exact hok hist w
    obtain ⟨s2, a2⟩ := directOutput_all_ok
      (HAL_Delay (DAC128S085_DirectOutput run.hspi3 channel 4095).2 50) channel 0 hc
      (by omega) hok1
    rw [test_loop_step channel hc run, ih (channel + 1) _ (show channel + 1 + n = 8 by omega)]
    · simp only [HAL_Delay] at s2
      simp only [HAL_Delay, s2, s1, List.range'_succ, List.flatMap_cons, pulseWords,
        List.append_assoc, List.cons_append, List.nil_append]
    · intro hist w
      simp only [a2]
      exact hok1 hist w


/-- C14: `DAC128S085_TEST_DirectOutput` is total and ends after exactly 8 loop iterations.
Its calls of `DAC128S085_DirectOutput` are, in order, `(c, 4095)` then `(c, 0)` for
`c = 0, ..., 7`: all in range, and none returns `E_DAC_PARAM_ERROR`. When every transport
send succeeds the words sent are, for `c = 0, ..., 7` in ascending order, the register
word for `(c, 4095)`, the enable word `UPDATE_SEL | (1 << c)`, the register word for
`(c, 0)` and the same enable word again: 32 sends in all. -/
theorem test_directOutput_run (hspi3 : SpiBus) :
    (DAC128S085_TEST_DirectOutput hspi3).iterations = 8 ∧
    (DAC128S085_TEST_DirectOutput hspi3).calls.map (fun call => (call.1, call.2.1))
      = (List.range 8).flatMap (fun c => [(c, 4095), (c, 0)]) ∧
    (∀ call ∈ (DAC128S085_TEST_DirectOutput hspi3).calls,
      call.1 < 8 ∧ call.2.1 ≤ 4095 ∧ call.2.2 ≠ E_DAC_STATUS.E_DAC_PARAM_ERROR) ∧
    ((∀ hist w, hspi3.answer hist w = HAL_StatusTypeDef.HAL_OK) →
      (DAC128S085_TEST_DirectOutput hspi3).hspi3.sent
        = hspi3.sent ++ (List.range 8).flatMap pulseWords) ∧
    ((List.range 8).flatMap pulseWords).length = 32 ∧
    (List.range 8).flatMap pulseWords = [
        0x0FFF, 0xA001, 0x0000, 0xA001,
        0x1FFF, 0xA002, 0x1000, 0xA002,
        0x2FFF, 0xA004, 0x2000, 0xA004,
        0x3FFF, 0xA008, 0x3000, 0xA008,
        0x4FFF, 0xA010, 0x4000, 0xA010,
        0x5FFF, 0xA020, 0x5000, 0xA020,
        0x6FFF, 0xA040, 0x6000, 0xA040,
        0x7FFF, 0xA080, 0x7000, 0xA080] := by
  obtain ⟨h1, h2, h3⟩ := test_loop_calls 8 0
    { hspi3 := hspi3, iterations := 0, calls := [] } (by omega)
  have hr : List.range' 0 8 = List.range 8 := by decide
  have hargs : (DAC128S085_TEST_DirectOutput hspi3).calls.map (fun call => (call.1, call.2.1))
      = (List.range 8).flatMap (fun c => [(c, 4095), (c, 0)]) := by
    unfold DAC128S085_TEST_DirectOutput
    rw [h2, hr]
    rfl
  have hbound : ∀ p ∈ (List.range 8).flatMap (fun c => [(c, 4095), (c, 0)]),
      p.1 < 8 ∧ p.2 ≤ 4095 := by decide
  refine ⟨?_, hargs, ?_, ?_, by decide, by decide⟩
  · unfold DAC128S085_TEST_DirectOutput
    rw [h1]
  · intro call hcall
    have hmem : (call.1, call.2.1) ∈
        (DAC128S085_TEST_DirectOutput hspi3).calls.map (fun call => (call.1, call.2.1)) :=
      List.mem_map_of_mem (fun call => (call.1, call.2.1)) hcall
    rw [hargs] at hmem
    have hb := hbound _ hmem
    refine ⟨hb.1, hb.2, ?_⟩
    exact h3 (by simp) call hcall
  · intro hok
    unfold DAC128S085_TEST_DirectOutput
    rw [test_loop_sends 8 0 _ (by omega) hok, hr]

/-- C14, witness: on a fresh transport that accepts every word the self-test runs 8
iterations and sends exactly these 32 words. -/
theorem test_directOutput_run_witness :
    (∀ hist w, okBus.answer hist w = HAL_StatusTypeDef.HAL_OK) ∧
    (DAC128S085_TEST_DirectOutput okBus).iterations = 8 ∧
    (DAC128S085_TEST_DirectOutput okBus).hspi3.sent = [
        0x0FFF, 0xA001, 0x0000, 0xA001,
        0x1FFF, 0xA002, 0x1000, 0xA002,
        0x2FFF, 0xA004, 0x2000, 0xA004,
        0x3FFF, 0xA008, 0x3000, 0xA008,
        0x4FFF, 0xA010, 0x4000, 0xA010,
        0x5FFF, 0xA020, 0x5000, 0xA020,
        0x6FFF, 0xA040, 0x6000, 0xA040,
        0x7FFF, 0xA080, 0x7000, 0xA080] :=
  have h := test_directOutput_run okBus
  ⟨fun _ _ => rfl, h.1,
   ((h.2.2.2.1 (fun _ _ => rfl)).trans (List.nil_append _)).trans h.2.2.2.2.2⟩

end DAC128S085
